import Mathlib

/-!
A verification development for the cross-platform session/credential
bootstrap and auth-state reconciliation flow of a React Native + Expo
client application.

The JavaScript source is shallowly embedded as executable Lean
definitions:

* asynchronous JS functions become pure functions returning `JSOut α`
  (a value, or a propagated exception / promise rejection) together
  with an explicit successor state where they mutate state;
* the external backend auth service (a hosted BaaS client) is a
  parameter: a record of the responses its calls produce, since the
  embedded code only wires those responses;
* `URLSearchParams` / `new URL(...).searchParams` become an executable
  percent-decoding query-string parser;
* the key-value stores (browser localStorage, the in-memory fallback
  map, the OS secure store, and the general persistent store) become
  association lists, with an explicit fault overlay where a claim is
  about storage failure.
-/

namespace RNApp

/-- Platform discriminator (`Platform.OS` in the source). -/
inductive PlatformOS
  | web
  | ios
  | android
deriving DecidableEq, Repr

/-- `Platform.OS === 'web'`. -/
def PlatformOS.isWeb : PlatformOS → Bool
  | .web => true
  | .ios => false
  | .android => false

/-- Outcome of a JS async call as seen by its caller: either a value
or a propagated exception / promise rejection. -/
inductive JSOut (α : Type)
  | thrown (msg : String)
  | ret (v : α)
deriving DecidableEq, Repr

/-- Whether `pat` is a prefix of `l`. -/
def isPrefixList : List Char → List Char → Bool
  | [], _ => true
  | _ :: _, [] => false
  | a :: as, b :: bs => a == b && isPrefixList as bs

/-- Whether `pat` occurs in `l` as a contiguous sublist. -/
def containsList (pat l : List Char) : Bool :=
  match l with
  | [] => pat.isEmpty
  | _ :: rest => isPrefixList pat l || containsList pat rest

/-- `s.includes(pat)`. -/
def containsSub (s pat : String) : Bool :=
  containsList pat.toList s.toList

/-- `strEmpty s` is JS falsiness of the string `s`. -/
def strEmpty (s : String) : Bool :=
  s.toList.isEmpty

/-- Split at every occurrence of the character `sep`, JS
`s.split(sep)` style: `"a&&b"` gives `["a", "", "b"]` and `""` gives
`[""]`. -/
def splitOnCharAux (sep : Char) (cur : List Char) : List Char → List (List Char)
  | [] => [cur.reverse]
  | c :: rest =>
    if c == sep then cur.reverse :: splitOnCharAux sep [] rest
    else splitOnCharAux sep (c :: cur) rest

def splitOnChar (sep : Char) (l : List Char) : List (List Char) :=
  splitOnCharAux sep [] l

/-- Split at the first occurrence of `pat`, returning the part before
it and the part after it, or nothing when `pat` does not occur. -/
def splitFirstAux (pat : List Char) (acc : List Char) : List Char → Option (List Char × List Char)
  | [] => none
  | c :: rest =>
    if isPrefixList pat (c :: rest) then some (acc.reverse, (c :: rest).drop pat.length)
    else splitFirstAux pat (c :: acc) rest

def splitFirst (pat : List Char) (l : List Char) : Option (List Char × List Char) :=
  splitFirstAux pat [] l

/-- Value of a hexadecimal digit, if any. -/
def hexDigitVal (c : Char) : Option Nat :=
  if '0' ≤ c ∧ c ≤ '9' then some (c.toNat - '0'.toNat)
  else if 'a' ≤ c ∧ c ≤ 'f' then some (c.toNat - 'a'.toNat + 10)
  else if 'A' ≤ c ∧ c ≤ 'F' then some (c.toNat - 'A'.toNat + 10)
  else none

/-- `application/x-www-form-urlencoded` decoding of one component, as
`URLSearchParams` performs it: `+` becomes a space, `%XY` with two hex
digits becomes the corresponding character, and a malformed `%` is
kept verbatim. -/
def percentDecodeList : List Char → List Char
  | [] => []
  | '+' :: rest => ' ' :: percentDecodeList rest
  | '%' :: a :: b :: rest =>
    match hexDigitVal a, hexDigitVal b with
    | some hi, some lo => Char.ofNat (16 * hi + lo) :: percentDecodeList rest
    | _, _ => '%' :: percentDecodeList (a :: b :: rest)
  | c :: rest => c :: percentDecodeList rest

def percentDecode (s : String) : String :=
  String.mk (percentDecodeList s.toList)

/-- Split one `name=value` piece at the first `=`; a piece without `=`
has the empty value. -/
def splitKV (piece : List Char) : List Char × List Char :=
  match splitFirst ['='] piece with
  | none => (piece, [])
  | some nv => nv

/-- `new URLSearchParams(s)`: split on `&`, drop empty pieces, split
each piece at the first `=`, percent-decode names and values. -/
def parseParams (s : String) : List (String × String) :=
  ((splitOnChar '&' s.toList).filter (fun p => !p.isEmpty)).map
    (fun p =>
      let kv := splitKV p
      (String.mk (percentDecodeList kv.1), String.mk (percentDecodeList kv.2)))

/-- `params.get(name)`: the first value bound to `name`, or null. -/
def getParam (ps : List (String × String)) (name : String) : Option String :=
  (ps.find? (fun kv => kv.1 == name)).map (fun kv => kv.2)

/-- JS truthiness of a nullable string: null and the empty string are
falsy. -/
def truthyStr : Option String → Bool
  | none => false
  | some s => !strEmpty s

/-- A session as the client models it: the bearer-credential pair. -/
structure Session where
  access_token : String
  refresh_token : String
deriving DecidableEq, Repr

/-- The `data` component of a session query result. -/
structure SessionData where
  session : Option Session
deriving DecidableEq, Repr

/-- The `(data, error)` result shape of session retrieval calls. -/
structure GetSessionRes where
  data : Option SessionData
  error : Option String
deriving DecidableEq, Repr

/-- The `data` component of an auth operation result: the user record
(kept abstract as its email) and the session, each possibly null. -/
structure OpData where
  user : Option String
  session : Option Session
deriving DecidableEq, Repr

/-- The `(data, error)` result shape of the public auth operations. -/
structure OpResult where
  data : Option OpData
  error : Option String
deriving DecidableEq, Repr

/-- How one `supabase.auth.setSession` call resolves: it may reject
(modelled as a throw at the `await`), resolve with an error value, or
succeed, in which case the installed session is built from exactly the
tokens passed in. -/
inductive SetSessionOutcome
  | throws (msg : String)
  | errors (msg : String)
  | succeeds
deriving DecidableEq, Repr

/-- The external backend auth service, modelled by the responses its
calls produce during the call under consideration.  Per the client
library's API contract these calls resolve with a `(data, error)`
pair rather than rejecting; `setSession` is additionally allowed to
reject because the source wraps it in its own try/catch. -/
structure Backend where
  setSession : String → String → SetSessionOutcome
  stdSession : Option Session × Option String
  signUpRes : OpResult
  signInRes : OpResult
  signOutErr : Option String
  resetRes : OpResult
  updateRes : OpResult
  oauthRes : OpResult
  idTokenRes : OpResult

/-- The web-surface state `getSession` interacts with: the address
fragment (`window.location.hash`, empty or starting with `#`), the
availability of `window.history.replaceState`, and the client's
current session. -/
structure WebWorld where
  platform : PlatformOS
  hash : String
  historyReplace : Bool
  cur : Option Session
deriving DecidableEq, Repr

/-- Fragment parameters: `new URLSearchParams(hash.substring(1))`. -/
def fragParams (hash : String) : List (String × String) :=
  parseParams (String.mk (hash.toList.drop 1))

/-- The result of the standard backend session retrieval
(`supabase.auth.getSession()`), which resolves with
`(data: section, error)` built from the backend's persisted session. -/
def stdGetSessionRes (B : Backend) : GetSessionRes :=
  ⟨some ⟨B.stdSession.1⟩, B.stdSession.2⟩

/-- `auth.getSession` (src/unnamed/part_000, lines 147-208).  On web,
when the fragment mentions `access_token` or `error`, the fragment is
parsed; a truthy access token leads to an explicit `setSession` with
the access token and the refresh token (defaulted to the empty string),
then — provided `setSession` did not reject — the fragment is stripped
via `history.replaceState` when available and the `setSession` result
is returned.  Every other path falls through to the standard backend
retrieval.  The enclosing try/catch of the source is unreachable here
because every inner call is modelled per its non-rejecting contract. -/
def getSession (B : Backend) (w : WebWorld) : JSOut GetSessionRes × WebWorld :=
  if w.platform.isWeb && !strEmpty w.hash then
    if containsSub w.hash "access_token" || containsSub w.hash "error" then
      let ps := fragParams w.hash
      let accessToken := getParam ps "access_token"
      let refreshToken := getParam ps "refresh_token"
      if truthyStr accessToken then
        let a := accessToken.getD ""
        let r := refreshToken.getD ""
        match B.setSession a r with
        | .succeeds =>
          (.ret ⟨some ⟨some ⟨a, r⟩⟩, none⟩,
           { w with cur := some ⟨a, r⟩, hash := if w.historyReplace then "" else w.hash })
        | .errors e =>
          (.ret ⟨some ⟨none⟩, some e⟩,
           { w with hash := if w.historyReplace then "" else w.hash })
        | .throws _ => (.ret (stdGetSessionRes B), w)
      else (.ret (stdGetSessionRes B), w)
    else (.ret (stdGetSessionRes B), w)
  else (.ret (stdGetSessionRes B), w)

/-- A passable URL scheme, as `new URL(...)` accepts before `://`:
non-empty, letters/digits/`+`/`-`/`.`, starting with a letter. -/
def validScheme (s : List Char) : Bool :=
  !s.isEmpty
    && s.all (fun c => c.isAlpha || c.isDigit || c == '+' || c == '-' || c == '.')
    && (s.headD 'a').isAlpha

/-- The raw query string of a URL: everything after the first `?`,
cut off at the first `#`. -/
def urlQueryString (url : String) : String :=
  let beforeFrag := (splitOnChar '#' url.toList).headD []
  match splitFirst ['?'] beforeFrag with
  | none => ""
  | some qs => String.mk qs.2

/-- `new URL(url).searchParams`: `none` models the constructor
throwing on a string without a valid `scheme://` prefix (e.g. a
relative URL); otherwise the query string is parsed as parameters. -/
def parseURLParams (url : String) : Option (List (String × String)) :=
  match splitFirst [':', '/', '/'] url.toList with
  | some sr => if validScheme sr.1 then some (parseParams (urlQueryString url)) else none
  | none => none

/-- The result of `auth.handleAuthDeepLink`: null when no actionable
artifact was found, or a `(data, error, type)` record. -/
inductive DeepLinkRet
  | noLink
  | res (data : Option SessionData) (error : Option String) (typ : String)
deriving DecidableEq, Repr

/-- `auth.handleAuthDeepLink` (src/unnamed/part_000, lines 338-365;
identical in src/unnamed/part_001, lines 275-302).  A URL mentioning
`verify-email` or `reset-password` is parsed (`new URL` throwing lands
in the catch, which returns a `data: null, error, type: 'error'`
record); with a truthy access token and type, the session is installed
from the access token and the defaulted refresh token and the
`setSession` result is returned together with the type.  All other
paths return null.  The second component is the client session after
the call. -/
def handleAuthDeepLink (B : Backend) (cur : Option Session) (url : String) :
    JSOut DeepLinkRet × Option Session :=
  if !strEmpty url && (containsSub url "verify-email" || containsSub url "reset-password") then
    match parseURLParams url with
    | none => (.ret (.res none (some "Invalid URL") "error"), cur)
    | some ps =>
      let accessToken := getParam ps "access_token"
      let refreshToken := getParam ps "refresh_token"
      let typ := getParam ps "type"
      if truthyStr accessToken && truthyStr typ then
        let a := accessToken.getD ""
        let r := refreshToken.getD ""
        match B.setSession a r with
        | .succeeds => (.ret (.res (some ⟨some ⟨a, r⟩⟩) none (typ.getD "")), some ⟨a, r⟩)
        | .errors e => (.ret (.res (some ⟨none⟩) (some e) (typ.getD "")), cur)
        | .throws m => (.ret (.res none (some m) "error"), cur)
      else (.ret .noLink, cur)
  else (.ret .noLink, cur)

/-! ## The Credential Store -/

/-- One key-value store as an association list (first binding wins). -/
abbrev KVStore := List (String × String)

/-- Read a key. -/
def lookupKey (m : KVStore) (k : String) : Option String :=
  (m.find? (fun kv => kv.1 == k)).map (fun kv => kv.2)

/-- Bind a key (replacing any previous binding). -/
def setKey (m : KVStore) (k v : String) : KVStore :=
  (m.filter (fun kv => kv.1 != k)) ++ [(k, v)]

/-- Remove a key (a no-op when the key is absent). -/
def removeKey (m : KVStore) (k : String) : KVStore :=
  m.filter (fun kv => kv.1 != k)

/-- Remove several keys (`AsyncStorage.multiRemove` / repeated
`removeItem`). -/
def removeKeys (m : KVStore) (ks : List String) : KVStore :=
  ks.foldl removeKey m

/-- The four underlying stores plus the module-scope
`hasLocalStorage` capability probe. -/
structure StoreWorld where
  localAvail : Bool
  localStore : KVStore
  memStore : KVStore
  secureStore : KVStore
  asyncStore : KVStore
deriving DecidableEq, Repr

/-- Failure overlay on the storage primitives: a synchronous throw of
the browser-local store, and async rejections of the secure store and
the general persistent store. -/
structure Faults where
  localFault : Option String
  secureFault : Option String
  asyncFault : Option String
deriving DecidableEq, Repr

/-- All primitives behaving normally. -/
def noFaults : Faults := ⟨none, none, none⟩

/-- The sensitive-key naming predicate of the native adapter:
`key.includes('auth') || key.includes('token') || key.includes('refresh')`. -/
def isSensitiveKey (k : String) : Bool :=
  containsSub k "auth" || containsSub k "token" || containsSub k "refresh"

/-- `memoryStorage[key] || null`: a missing or empty entry reads as
null. -/
def jsOrNull (v : Option String) : Option String :=
  match v with
  | some s => if strEmpty s then none else some s
  | none => none

/-- `ExpoSecureStoreAdapter.getItem` (src/.../storage.js, lines 14-27
and 61-75).  On web the synchronous read is inside try/catch, so a
localStorage throw is converted to null.  On native the routed promise
(`SecureStore.getItemAsync` / `AsyncStorage.getItem`) is returned
without `await`, so its rejection escapes the try/catch and propagates
to the caller. -/
def adapterGetItem (plat : PlatformOS) (f : Faults) (w : StoreWorld) (k : String) :
    JSOut (Option String) × StoreWorld :=
  if plat.isWeb then
    if w.localAvail then
      match f.localFault with
      | some _ => (.ret none, w)
      | none => (.ret (lookupKey w.localStore k), w)
    else (.ret (jsOrNull (lookupKey w.memStore k)), w)
  else
    if isSensitiveKey k then
      match f.secureFault with
      | some m => (.thrown m, w)
      | none => (.ret (lookupKey w.secureStore k), w)
    else
      match f.asyncFault with
      | some m => (.thrown m, w)
      | none => (.ret (lookupKey w.asyncStore k), w)

/-- `ExpoSecureStoreAdapter.setItem` (lines 28-41 and 77-90); same
try/catch shapes as `getItem`. -/
def adapterSetItem (plat : PlatformOS) (f : Faults) (w : StoreWorld) (k v : String) :
    JSOut Unit × StoreWorld :=
  if plat.isWeb then
    if w.localAvail then
      match f.localFault with
      | some _ => (.ret (), w)
      | none => (.ret (), { w with localStore := setKey w.localStore k v })
    else (.ret (), { w with memStore := setKey w.memStore k v })
  else
    if isSensitiveKey k then
      match f.secureFault with
      | some m => (.thrown m, w)
      | none => (.ret (), { w with secureStore := setKey w.secureStore k v })
    else
      match f.asyncFault with
      | some m => (.thrown m, w)
      | none => (.ret (), { w with asyncStore := setKey w.asyncStore k v })

/-- `ExpoSecureStoreAdapter.removeItem` (lines 42-55 and 92-103);
same try/catch shapes as `getItem`. -/
def adapterRemoveItem (plat : PlatformOS) (f : Faults) (w : StoreWorld) (k : String) :
    JSOut Unit × StoreWorld :=
  if plat.isWeb then
    if w.localAvail then
      match f.localFault with
      | some _ => (.ret (), w)
      | none => (.ret (), { w with localStore := removeKey w.localStore k })
    else (.ret (), { w with memStore := removeKey w.memStore k })
  else
    if isSensitiveKey k then
      match f.secureFault with
      | some m => (.thrown m, w)
      | none => (.ret (), { w with secureStore := removeKey w.secureStore k })
    else
      match f.asyncFault with
      | some m => (.thrown m, w)
      | none => (.ret (), { w with asyncStore := removeKey w.asyncStore k })

/-- Result record of the `storage.*` utilities: `(error)` or
`(data, error)`; only the error component matters here. -/
structure StorageRes where
  error : Option String
deriving DecidableEq, Repr

/-- `storage.remove` (src/.../storage.js, lines 172-190): web routes
to localStorage or the memory map, native to the general persistent
store; the awaited call sits in try/catch, so a failure becomes an
error value. -/
def storageRemove (plat : PlatformOS) (f : Faults) (w : StoreWorld) (k : String) :
    StorageRes × StoreWorld :=
  if plat.isWeb then
    if w.localAvail then
      match f.localFault with
      | some m => (⟨some m⟩, w)
      | none => (⟨none⟩, { w with localStore := removeKey w.localStore k })
    else (⟨none⟩, { w with memStore := removeKey w.memStore k })
  else
    match f.asyncFault with
    | some m => (⟨some m⟩, w)
    | none => (⟨none⟩, { w with asyncStore := removeKey w.asyncStore k })

/-- `storage.clearMultiple` (src/.../storage.js, lines 294-313):
the bulk variant of `storage.remove`. -/
def storageClearMultiple (plat : PlatformOS) (f : Faults) (w : StoreWorld) (ks : List String) :
    StorageRes × StoreWorld :=
  if plat.isWeb then
    if w.localAvail then
      match f.localFault with
      | some m => (⟨some m⟩, w)
      | none => (⟨none⟩, { w with localStore := removeKeys w.localStore ks })
    else (⟨none⟩, { w with memStore := removeKeys w.memStore ks })
  else
    match f.asyncFault with
    | some m => (⟨some m⟩, w)
    | none => (⟨none⟩, { w with asyncStore := removeKeys w.asyncStore ks })

/-! ## Auth operations -/

/-- The environment of `auth.signOut`'s best-effort native provider
step: the platform, whether the Google Sign-In module loaded, and
whether its `signOut` call throws. -/
structure SignOutEnv where
  platform : PlatformOS
  googleAvail : Bool
  googleSignOutThrows : Bool
deriving DecidableEq, Repr

/-- The keys bulk-removed on sign-out. -/
def signOutKeys : List String :=
  ["lastSignIn", "userEmail", "userPreferences", "authProvider"]

/-- `auth.signOut` (src/unnamed/part_000, lines 273-306).  On native,
the provider sign-out runs inside its own try/catch, so its outcome
never reaches the rest of the function.  Then the backend sign-out
runs; only when it reports no error are the cached metadata keys
bulk-removed from the general persistent store (the removal itself is
a best-effort try/catch around a bulk removal whose primitive is total
on the modelled store). -/
def signOut (B : Backend) (env : SignOutEnv) (store : KVStore) :
    JSOut (Option String) × KVStore :=
  let _googleStep : JSOut Unit :=
    if !env.platform.isWeb && env.googleAvail then
      if env.googleSignOutThrows then .ret () else .ret ()
    else .ret ()
  match B.signOutErr with
  | some e => (.ret (some e), store)
  | none => (.ret none, removeKeys store signOutKeys)

/-- `auth.signUpWithEmail` (src/unnamed/part_000, lines 213-238): a
pass-through of the backend result; on success a signup-attempt
timestamp and the provider tag are cached best-effort. -/
def signUpWithEmail (B : Backend) (store : KVStore) (_email _password : String) :
    JSOut OpResult × KVStore :=
  match B.signUpRes.error with
  | some _ => (.ret B.signUpRes, store)
  | none =>
    (.ret B.signUpRes, setKey (setKey store "lastSignUpAttempt" "ts") "authProvider" "email")

/-- `auth.signInWithEmail` (src/unnamed/part_000, lines 243-268): a
pass-through of the backend result; on success with a user present,
the last-sign-in timestamp, email and provider tag are cached
best-effort. -/
def signInWithEmail (B : Backend) (store : KVStore) (_email _password : String) :
    JSOut OpResult × KVStore :=
  match B.signInRes.error with
  | some _ => (.ret B.signInRes, store)
  | none =>
    match B.signInRes.data with
    | some d =>
      match d.user with
      | some em =>
        (.ret B.signInRes,
         setKey (setKey (setKey store "lastSignIn" "ts") "userEmail" em) "authProvider" "email")
      | none => (.ret B.signInRes, store)
    | none => (.ret B.signInRes, store)

/-- `auth.resetPassword` (src/unnamed/part_000, lines 311-316): a thin
pass-through of the backend password-reset call. -/
def resetPassword (B : Backend) (_email : String) : JSOut OpResult :=
  .ret B.resetRes

/-- `auth.updatePassword` (src/unnamed/part_000, lines 321-326): a
thin pass-through of the backend password-update call. -/
def updatePassword (B : Backend) (_newPassword : String) : JSOut OpResult :=
  .ret B.updateRes

/-- The environment of the native Google sign-in handshake: whether
the module loaded, whether the Android play-services check throws, and
how the native sign-in UI resolves (a throw, e.g. the user cancelling,
or a user-info record whose ID token may be missing). -/
structure GoogleEnv where
  platform : PlatformOS
  googleAvail : Bool
  playServicesThrows : Bool
  signInOutcome : JSOut (Option String)
deriving DecidableEq, Repr

/-- `auth.signInWithGoogle` (src/unnamed/part_000, lines 44-127).  The
whole body sits in one try/catch, so every throw of the handshake is
converted into a `(null, error)` result.  Web delegates to the
redirect OAuth flow; native requires the module, the Android
play-services check, the handshake, and a truthy ID token before the
token is exchanged with the backend; on success the metadata keys are
cached best-effort. -/
def signInWithGoogle (B : Backend) (g : GoogleEnv) (store : KVStore) :
    JSOut OpResult × KVStore :=
  if g.platform.isWeb then
    match B.oauthRes.error with
    | some e => (.ret ⟨none, some e⟩, store)
    | none => (.ret ⟨B.oauthRes.data, none⟩, store)
  else if !g.googleAvail then
    (.ret ⟨none, some "Google Sign-In is not available on this platform"⟩, store)
  else if g.platform == .android && g.playServicesThrows then
    (.ret ⟨none, some "Play Services unavailable"⟩, store)
  else
    match g.signInOutcome with
    | .thrown m => (.ret ⟨none, some m⟩, store)
    | .ret idTok =>
      if !truthyStr idTok then
        (.ret ⟨none, some "No ID token received from Google"⟩, store)
      else
        match B.idTokenRes.error with
        | some e => (.ret ⟨none, some e⟩, store)
        | none =>
          match B.idTokenRes.data with
          | some d =>
            match d.user with
            | some em =>
              (.ret ⟨B.idTokenRes.data, none⟩,
               setKey (setKey (setKey store "lastSignIn" "ts") "userEmail" em)
                 "authProvider" "google")
            | none => (.ret ⟨B.idTokenRes.data, none⟩, store)
          | none => (.ret ⟨B.idTokenRes.data, none⟩, store)

/-- The condition under which `signInWithGoogle` reports an error:
the backend call failed, or the provider capability/handshake failed
before any backend call (module absent, play-services check threw,
handshake threw, or no ID token was returned). -/
def googleFailCond (B : Backend) (g : GoogleEnv) : Bool :=
  if g.platform.isWeb then B.oauthRes.error.isSome
  else if !g.googleAvail then true
  else if g.platform == .android && g.playServicesThrows then true
  else
    match g.signInOutcome with
    | .thrown _ => true
    | .ret idTok => if !truthyStr idTok then true else B.idTokenRes.error.isSome

/-- `auth.hasPreviousSignIn` (src/unnamed/part_000, lines 132-142):
web asks the backend for a session; native defers to the provider
SDK's own flag when the module loaded, and otherwise returns false. -/
def hasPreviousSignIn (B : Backend) (plat : PlatformOS) (googleAvail : Bool)
    (googlePrev : JSOut Bool) : JSOut Bool :=
  if plat.isWeb then .ret B.stdSession.1.isSome
  else if googleAvail then googlePrev
  else .ret false

/-! ## Concrete fixtures used by witnesses and counterexamples -/

/-- A fully successful backend operation result. -/
def okRes : OpResult := ⟨some ⟨some "a@x.com", some ⟨"AT", "RT"⟩⟩, none⟩

/-- A backend on which every call succeeds. -/
def Bok : Backend :=
  { setSession := fun _ _ => .succeeds
    stdSession := (none, none)
    signUpRes := okRes
    signInRes := okRes
    signOutErr := none
    resetRes := okRes
    updateRes := okRes
    oauthRes := okRes
    idTokenRes := okRes }

/-- A web world holding a completed OAuth redirect fragment. -/
def wRedirect : WebWorld :=
  { platform := .web, hash := "#access_token=T1&refresh_token=T2", historyReplace := true,
    cur := none }

/-- A web world whose fragment carries an empty access token value. -/
def wEmptyTok : WebWorld :=
  { platform := .web, hash := "#access_token=&refresh_token=T2", historyReplace := true,
    cur := none }

/-- A web world holding only a redirect error artifact. -/
def wDenied : WebWorld :=
  { platform := .web, hash := "#error=access_denied", historyReplace := true, cur := none }

/-- A store holding the four cached metadata keys. -/
def storeFull : KVStore :=
  [("lastSignIn", "2024-01-01"), ("userEmail", "a@x.com"), ("userPreferences", "dark"),
   ("authProvider", "email")]

/-- A native sign-out environment whose provider step throws. -/
def envNative : SignOutEnv := ⟨.ios, true, true⟩

/-- An empty store world on a platform without localStorage. -/
def emptyStoreW : StoreWorld := ⟨false, [], [], [], []⟩

/-! ## Helper lemmas -/

theorem strEmpty_false_iff (s : String) : strEmpty s = false ↔ s ≠ "" := by
  unfold strEmpty
  constructor
  · intro h hs
    subst hs
    simp at h
  · intro h
    cases hl : s.toList with
    | nil =>
      exact absurd (String.ext (hl.trans rfl)) h
    | cons c cs => simp

theorem strEmpty_false_of_contains {s pat : String} (hp : pat ≠ "")
    (h : containsSub s pat = true) : strEmpty s = false := by
  unfold containsSub at h
  unfold strEmpty
  cases hl : s.toList with
  | nil =>
    rw [hl] at h
    unfold containsList at h
    simp at h
    exact absurd (String.ext (h.trans rfl)) hp
  | cons c cs => simp

/-! ## Claim C1 -/

/-- Claim C1, as stated, is false: in this web world the fragment
contains an `access_token` parameter (with the empty value), yet
`getSession` falls through to the standard backend retrieval — no
session is built from the fragment tokens — and the visible address
still carries the fragment afterwards. -/
theorem c1_counterexample :
    getParam (fragParams wEmptyTok.hash) "access_token" = some "" ∧
    getSession Bok wEmptyTok = (.ret (stdGetSessionRes Bok), wEmptyTok) ∧
    wEmptyTok.hash = "#access_token=&refresh_token=T2" := by
  exact ⟨by decide, by decide, rfl⟩

/-- Claim C1 (amended): on the web platform, when the fragment carries
an `access_token` parameter with a non-empty value (the fragment text
mentioning `access_token`), the history API is available, and the
backend `setSession` call does not reject, `getSession` installs a
session built from exactly the fragment's access token and its refresh
token (defaulting to the empty string), returns it, and strips the
fragment from the visible address. -/
theorem c1_fragment_session (B : Backend) (w : WebWorld) (a : String)
    (hweb : w.platform.isWeb = true)
    (hsub : containsSub w.hash "access_token" = true)
    (ha : getParam (fragParams w.hash) "access_token" = some a)
    (hne : a ≠ "")
    (hhist : w.historyReplace = true)
    (hset : B.setSession a ((getParam (fragParams w.hash) "refresh_token").getD "") =
      .succeeds) :
    getSession B w =
      (.ret ⟨some ⟨some ⟨a, (getParam (fragParams w.hash) "refresh_token").getD ""⟩⟩, none⟩,
       { w with cur := some ⟨a, (getParam (fragParams w.hash) "refresh_token").getD ""⟩,
                hash := "" }) := by
  have hne1 : strEmpty w.hash = false :=
    strEmpty_false_of_contains (by decide) hsub
  have hta : strEmpty a = false := (strEmpty_false_iff a).mpr hne
  simp only [getSession, hweb, hne1, hsub, ha, hta, hhist, truthyStr, Option.getD_some,
    Bool.not_false, Bool.true_and, Bool.true_or, if_true]
  rw [hset]

/-- Witness for claim C1's amended theorem at the concrete redirect
fragment `#access_token=T1&refresh_token=T2`. -/
theorem c1_fragment_session_witness :
    getSession Bok wRedirect =
      (.ret ⟨some ⟨some ⟨"T1", "T2"⟩⟩, none⟩,
       { wRedirect with cur := some ⟨"T1", "T2"⟩, hash := "" }) :=
  c1_fragment_session Bok wRedirect "T1" (by decide) (by decide) (by decide) (by decide)
    (by decide) (by decide)

/-! ## Claim C6 -/

/-- Claim C6: on the web platform, when the fragment carries an
`error` parameter and no `access_token` parameter, `getSession`
installs nothing from the fragment, throws nothing, and returns the
standard backend session retrieval with the world untouched. -/
theorem c6_error_fragment_falls_through (B : Backend) (w : WebWorld) (e : String)
    (hweb : w.platform.isWeb = true)
    (_herr : getParam (fragParams w.hash) "error" = some e)
    (hacc : getParam (fragParams w.hash) "access_token" = none) :
    getSession B w = (.ret (stdGetSessionRes B), w) := by
  unfold getSession
  cases hh : strEmpty w.hash with
  | true => simp [hh]
  | false =>
    cases hc : (containsSub w.hash "access_token" || containsSub w.hash "error") with
    | true => simp [hweb, hh, hc, hacc, truthyStr]
    | false => simp [hweb, hh, hc]

/-- Witness for claim C6 at the concrete fragment
`#error=access_denied`. -/
theorem c6_error_fragment_falls_through_witness :
    getSession Bok wDenied = (.ret (stdGetSessionRes Bok), wDenied) :=
  c6_error_fragment_falls_through Bok wDenied "access_denied" (by decide) (by decide)
    (by decide)

/-! ## Claim C2 -/

theorem lookupKey_removeKey_self (m : KVStore) (k : String) :
    lookupKey (removeKey m k) k = none := by
  unfold lookupKey removeKey
  simp only [Option.map_eq_none']
  rw [List.find?_eq_none]
  intro x hx
  have hne := (List.mem_filter.mp hx).2
  simp at hne ⊢
  exact hne

theorem lookupKey_none_removeKey (m : KVStore) (k k2 : String)
    (h : lookupKey m k = none) : lookupKey (removeKey m k2) k = none := by
  unfold lookupKey removeKey at *
  simp only [Option.map_eq_none'] at *
  rw [List.find?_eq_none] at *
  intro x hx
  exact h x (List.mem_filter.mp hx).1

theorem lookupKey_none_removeKeys (ks : List String) (m : KVStore) (k : String)
    (h : lookupKey m k = none) : lookupKey (removeKeys m ks) k = none := by
  induction ks generalizing m with
  | nil => exact h
  | cons a ks ih => exact ih _ (lookupKey_none_removeKey _ _ _ h)

theorem lookupKey_removeKeys_mem (ks : List String) (m : KVStore) (k : String)
    (hk : k ∈ ks) : lookupKey (removeKeys m ks) k = none := by
  induction ks generalizing m with
  | nil => cases hk
  | cons a ks ih =>
    cases hk with
    | head => exact lookupKey_none_removeKeys ks _ _ (lookupKey_removeKey_self m k)
    | tail _ hmem => exact ih _ hmem

/-- A backend whose sign-out call fails. -/
def BsoFail : Backend := { Bok with signOutErr := some "network error" }

/-- Claim C2, as stated, is false: when the backend sign-out call
fails, `signOut` returns the error and the four cached metadata keys
are NOT removed (the store is untouched and still holds
`lastSignIn`). -/
theorem c2_counterexample :
    signOut BsoFail envNative storeFull = (.ret (some "network error"), storeFull) ∧
    lookupKey storeFull "lastSignIn" = some "2024-01-01" := by
  exact ⟨by decide, by decide⟩

/-- Claim C2 (amended): whenever the backend sign-out call succeeds,
`signOut` removes `lastSignIn`, `userEmail`, `userPreferences` and
`authProvider` from the store — regardless of the platform and of
whether the best-effort native provider sign-out step was available or
threw. -/
theorem c2_signout_removes_keys (B : Backend) (env : SignOutEnv) (store : KVStore)
    (h : B.signOutErr = none) :
    (signOut B env store).1 = .ret none ∧
    ∀ k ∈ signOutKeys, lookupKey (signOut B env store).2 k = none := by
  unfold signOut
  rw [h]
  refine ⟨rfl, ?_⟩
  intro k hk
  exact lookupKey_removeKeys_mem _ _ _ hk

/-- Witness for claim C2's amended theorem: a successful sign-out on
native (with a throwing provider step) clears all four keys from a
store that held them. -/
theorem c2_signout_removes_keys_witness :
    (signOut Bok envNative storeFull).1 = .ret none ∧
    ∀ k ∈ signOutKeys, lookupKey (signOut Bok envNative storeFull).2 k = none :=
  c2_signout_removes_keys Bok envNative storeFull rfl

/-! ## Claim C3 -/

/-- Faults where the secure store's async call rejects. -/
def secureRejectFaults : Faults := ⟨none, some "SecureStore rejection", none⟩

/-- Claim C3 states the intended failure semantics, but the native
adapter violates it: the routed promise is returned from inside the
try/catch without `await`, so an async rejection of the underlying
primitive escapes the catch and propagates to the caller as a fault,
for each of `getItem`, `setItem` and `removeItem` (here on the
sensitive key "token" with a rejecting secure store). -/
theorem c3_async_rejection_escapes :
    adapterGetItem .ios secureRejectFaults emptyStoreW "token" =
      (.thrown "SecureStore rejection", emptyStoreW) ∧
    adapterSetItem .ios secureRejectFaults emptyStoreW "token" "v" =
      (.thrown "SecureStore rejection", emptyStoreW) ∧
    adapterRemoveItem .ios secureRejectFaults emptyStoreW "token" =
      (.thrown "SecureStore rejection", emptyStoreW) := by
  exact ⟨by decide, by decide, by decide⟩

/-! ## Claim C4 -/

/-- A native environment where the Google Sign-In module failed to
load. -/
def gNoSDK : GoogleEnv := ⟨.ios, false, false, .ret (some "idtok")⟩

/-- Claim C4, as stated, is false: with a backend on which every call
succeeds (every error field is null), the native Google sign-in still
returns a non-null error when the provider module is unavailable —
so the error is non-null although no attempted backend call failed. -/
theorem c4_counterexample :
    (signInWithGoogle Bok gNoSDK []).1 =
      .ret ⟨none, some "Google Sign-In is not available on this platform"⟩ ∧
    Bok.oauthRes.error = none ∧ Bok.idTokenRes.error = none ∧
    Bok.signUpRes.error = none ∧ Bok.signInRes.error = none ∧
    Bok.signOutErr = none ∧ Bok.resetRes.error = none ∧ Bok.updateRes.error = none := by
  exact ⟨by decide, rfl, rfl, rfl, rfl, rfl, rfl, rfl⟩

/-- Claim C4 (amended): every public auth operation returns a result
pair and never throws; the email sign-up, email sign-in, sign-out,
password reset and password update return exactly the backend's own
result (error non-null exactly when that backend call failed), and the
Google sign-in's error is non-null exactly when the backend call
failed or the provider capability/handshake failed first (module
absent, play-services check threw, handshake threw, or no ID token
returned). -/
theorem c4_result_pairs (B : Backend) (store : KVStore) (em pw : String)
    (env : SignOutEnv) (g : GoogleEnv) :
    (signUpWithEmail B store em pw).1 = .ret B.signUpRes ∧
    (signInWithEmail B store em pw).1 = .ret B.signInRes ∧
    (signOut B env store).1 = .ret B.signOutErr ∧
    resetPassword B em = .ret B.resetRes ∧
    updatePassword B pw = .ret B.updateRes ∧
    ∃ r : OpResult, (signInWithGoogle B g store).1 = .ret r ∧
      r.error.isSome = googleFailCond B g := by
  refine ⟨?_, ?_, ?_, rfl, rfl, ?_⟩
  · unfold signUpWithEmail
    split <;> rfl
  · unfold signInWithEmail
    split
    · rfl
    · split
      · split <;> rfl
      · rfl
  · simp only [signOut]
    split
    next e heq => rw [heq]
    next heq => rw [heq]
  · cases hw : g.platform.isWeb with
    | true =>
      cases ho : B.oauthRes.error with
      | some e =>
        exact ⟨⟨none, some e⟩, by simp [signInWithGoogle, hw, ho],
          by simp [googleFailCond, hw, ho]⟩
      | none =>
        exact ⟨⟨B.oauthRes.data, none⟩, by simp [signInWithGoogle, hw, ho],
          by simp [googleFailCond, hw, ho]⟩
    | false =>
      cases hg : g.googleAvail with
      | false =>
        exact ⟨⟨none, some "Google Sign-In is not available on this platform"⟩,
          by simp [signInWithGoogle, hw, hg], by simp [googleFailCond, hw, hg]⟩
      | true =>
        cases hps : (g.platform == PlatformOS.android && g.playServicesThrows) with
        | true =>
          exact ⟨⟨none, some "Play Services unavailable"⟩,
            by simp [signInWithGoogle, hw, hg, hps], by simp [googleFailCond, hw, hg, hps]⟩
        | false =>
          cases hs : g.signInOutcome with
          | thrown m =>
            exact ⟨⟨none, some m⟩, by simp [signInWithGoogle, hw, hg, hps, hs],
              by simp [googleFailCond, hw, hg, hps, hs]⟩
          | ret idTok =>
            cases ht : truthyStr idTok with
            | false =>
              exact ⟨⟨none, some "No ID token received from Google"⟩,
                by simp [signInWithGoogle, hw, hg, hps, hs, ht],
                by simp [googleFailCond, hw, hg, hps, hs, ht]⟩
            | true =>
              cases hi : B.idTokenRes.error with
              | some e =>
                exact ⟨⟨none, some e⟩, by simp [signInWithGoogle, hw, hg, hps, hs, ht, hi],
                  by simp [googleFailCond, hw, hg, hps, hs, ht, hi]⟩
              | none =>
                refine ⟨⟨B.idTokenRes.data, none⟩, ?_,
                  by simp [googleFailCond, hw, hg, hps, hs, ht, hi]⟩
                simp only [signInWithGoogle, hw, hg, hps, hs, ht, hi, Bool.not_true,
                  Bool.false_eq_true, if_false]
                split
                · split <;> rfl
                · rfl

/-! ## Claim C5 -/

/-- Claim C5, as stated, is false: in this deep link both an
`access_token` parameter and a `type` parameter are present (the
access token with the empty value), yet the handler installs nothing
and returns null instead of the operation type. -/
theorem c5_counterexample :
    getParam ((parseURLParams "rna://verify-email?access_token=&type=recovery").getD [])
      "access_token" = some "" ∧
    getParam ((parseURLParams "rna://verify-email?access_token=&type=recovery").getD [])
      "type" = some "recovery" ∧
    handleAuthDeepLink Bok none "rna://verify-email?access_token=&type=recovery" =
      (.ret .noLink, none) := by
  exact ⟨by decide, by decide, by decide⟩

/-- Claim C5 (amended): for a parseable URL mentioning `verify-email`
or `reset-password` whose query carries a non-empty `access_token`
value and a non-empty `type` value, and whose backend `setSession`
call succeeds, `handleAuthDeepLink` installs the session built from
exactly the access token and the refresh token (defaulting to the
empty string) and returns it together with the operation type. -/
theorem c5_deeplink_installs (B : Backend) (cur : Option Session) (url : String)
    (ps : List (String × String)) (a t : String)
    (hsub : (containsSub url "verify-email" || containsSub url "reset-password") = true)
    (hps : parseURLParams url = some ps)
    (ha : getParam ps "access_token" = some a) (hna : a ≠ "")
    (ht : getParam ps "type" = some t) (hnt : t ≠ "")
    (hset : B.setSession a ((getParam ps "refresh_token").getD "") = .succeeds) :
    handleAuthDeepLink B cur url =
      (.ret (.res (some ⟨some ⟨a, (getParam ps "refresh_token").getD ""⟩⟩) none t),
       some ⟨a, (getParam ps "refresh_token").getD ""⟩) := by
  have hne : strEmpty url = false := by
    rw [strEmpty_false_iff]
    intro h
    subst h
    rw [show parseURLParams "" = none from rfl] at hps
    cases hps
  have hta : strEmpty a = false := (strEmpty_false_iff a).mpr hna
  have htt : strEmpty t = false := (strEmpty_false_iff t).mpr hnt
  simp only [handleAuthDeepLink, hne, hsub, hps, ha, ht, truthyStr, hta, htt,
    Option.getD_some, Bool.not_false, Bool.true_and, Bool.and_self, if_true]
  rw [hset]

/-- Witness for claim C5's amended theorem at the concrete deep link
`rna://reset-password?access_token=AT1&refresh_token=RT1&type=recovery`. -/
theorem c5_deeplink_installs_witness :
    handleAuthDeepLink Bok none
        "rna://reset-password?access_token=AT1&refresh_token=RT1&type=recovery" =
      (.ret (.res (some ⟨some ⟨"AT1", "RT1"⟩⟩) none "recovery"), some ⟨"AT1", "RT1"⟩) :=
  c5_deeplink_installs Bok none
    "rna://reset-password?access_token=AT1&refresh_token=RT1&type=recovery"
    [("access_token", "AT1"), ("refresh_token", "RT1"), ("type", "recovery")]
    "AT1" "recovery" (by decide) (by decide) (by decide) (by decide) (by decide) (by decide)
    (by decide)

/-! ## Claim C7 -/

/-- Claim C7, as stated, is false: a deep link that mentions
`verify-email` but cannot be parsed as a URL (no scheme) is not
treated as "no actionable artifact": the handler returns an
error-tagged record to the caller. -/
theorem c7_counterexample :
    parseURLParams "verify-email?access_token=abc&type=signup" = none ∧
    handleAuthDeepLink Bok none "verify-email?access_token=abc&type=signup" =
      (.ret (.res none (some "Invalid URL") "error"), none) := by
  exact ⟨by decide, by decide⟩

/-- Claim C7 (amended): `handleAuthDeepLink` never throws to the
caller; an input missing a truthy `access_token` or `type` parameter
is treated as no actionable artifact (null result, session untouched);
and an input mentioning the auth paths that cannot be parsed yields
the caught error-tagged record (`data` null, `type` "error") rather
than a thrown exception, the session untouched. -/
theorem c7_malformed_never_throws (B : Backend) (cur : Option Session) (url : String) :
    (∃ r, (handleAuthDeepLink B cur url).1 = .ret r) ∧
    (∀ ps, parseURLParams url = some ps →
      (truthyStr (getParam ps "access_token") && truthyStr (getParam ps "type")) = false →
      handleAuthDeepLink B cur url = (.ret .noLink, cur)) ∧
    ((containsSub url "verify-email" || containsSub url "reset-password") = true →
      parseURLParams url = none →
      handleAuthDeepLink B cur url = (.ret (.res none (some "Invalid URL") "error"), cur)) := by
  refine ⟨?_, ?_, ?_⟩
  · unfold handleAuthDeepLink
    split
    · split
      · exact ⟨_, rfl⟩
      · dsimp only
        split
        · split <;> exact ⟨_, rfl⟩
        · exact ⟨_, rfl⟩
    · exact ⟨_, rfl⟩
  · intro ps hps hfalse
    unfold handleAuthDeepLink
    split
    · rw [hps]
      simp only [hfalse]
      simp
    · rfl
  · intro hsub hnone
    unfold handleAuthDeepLink
    split
    · rw [hnone]
    · next h =>
      exfalso
      apply h
      have hne : strEmpty url = false := by
        cases Bool.or_eq_true_iff.mp hsub with
        | inl h1 => exact strEmpty_false_of_contains (by decide) h1
        | inr h2 => exact strEmpty_false_of_contains (by decide) h2
      simp [hne, hsub]

/-- Witness for claim C7's amended theorem: a deep link missing the
expected parameters yields the silent null result. -/
theorem c7_malformed_never_throws_witness :
    handleAuthDeepLink Bok none "rna://verify-email?foo=1" = (.ret .noLink, none) := by
  have h := c7_malformed_never_throws Bok none "rna://verify-email?foo=1"
  exact h.2.1 [("foo", "1")] (by decide) (by decide)

/-! ## Claim C8 -/

/-- Claim C8: the Credential Store adapter's routing.  On web, all
three operations use the durable browser-local store when it is
available and the in-memory map otherwise; on native they use the
secure OS-backed store exactly for keys matching the sensitivity
predicate and the general persistent store for all other keys — in
each case leaving every other store untouched. -/
theorem c8_adapter_routing (plat : PlatformOS) (w : StoreWorld) (k v : String) :
    (plat.isWeb = true → w.localAvail = true →
      adapterGetItem plat noFaults w k = (.ret (lookupKey w.localStore k), w) ∧
      adapterSetItem plat noFaults w k v =
        (.ret (), { w with localStore := setKey w.localStore k v }) ∧
      adapterRemoveItem plat noFaults w k =
        (.ret (), { w with localStore := removeKey w.localStore k })) ∧
    (plat.isWeb = true → w.localAvail = false →
      adapterGetItem plat noFaults w k = (.ret (jsOrNull (lookupKey w.memStore k)), w) ∧
      adapterSetItem plat noFaults w k v =
        (.ret (), { w with memStore := setKey w.memStore k v }) ∧
      adapterRemoveItem plat noFaults w k =
        (.ret (), { w with memStore := removeKey w.memStore k })) ∧
    (plat.isWeb = false → isSensitiveKey k = true →
      adapterGetItem plat noFaults w k = (.ret (lookupKey w.secureStore k), w) ∧
      adapterSetItem plat noFaults w k v =
        (.ret (), { w with secureStore := setKey w.secureStore k v }) ∧
      adapterRemoveItem plat noFaults w k =
        (.ret (), { w with secureStore := removeKey w.secureStore k })) ∧
    (plat.isWeb = false → isSensitiveKey k = false →
      adapterGetItem plat noFaults w k = (.ret (lookupKey w.asyncStore k), w) ∧
      adapterSetItem plat noFaults w k v =
        (.ret (), { w with asyncStore := setKey w.asyncStore k v }) ∧
      adapterRemoveItem plat noFaults w k =
        (.ret (), { w with asyncStore := removeKey w.asyncStore k })) := by
  refine ⟨?_, ?_, ?_, ?_⟩ <;> intro h1 h2 <;> refine ⟨?_, ?_, ?_⟩ <;>
    simp [adapterGetItem, adapterSetItem, adapterRemoveItem, noFaults, h1, h2]

/-- Witness for claim C8 on native: the sensitive key "mytoken" is
routed to the secure store by `setItem`. -/
theorem c8_adapter_routing_witness :
    adapterSetItem .ios noFaults emptyStoreW "mytoken" "v" =
      (.ret (), { emptyStoreW with secureStore := setKey emptyStoreW.secureStore "mytoken" "v" }) := by
  have h := c8_adapter_routing .ios emptyStoreW "mytoken" "v"
  exact (h.2.2.1 rfl (by decide)).2.1

/-! ## Claim C9 -/

theorem removeKey_eq_self_of_absent (m : KVStore) (k : String)
    (h : lookupKey m k = none) : removeKey m k = m := by
  unfold lookupKey at h
  unfold removeKey
  simp only [Option.map_eq_none'] at h
  rw [List.find?_eq_none] at h
  apply List.filter_eq_self.mpr
  intro kv hkv
  simpa using h kv hkv

theorem removeKeys_eq_self_of_absent (ks : List String) (m : KVStore)
    (h : ∀ k ∈ ks, lookupKey m k = none) : removeKeys m ks = m := by
  induction ks with
  | nil => rfl
  | cons a ks ih =>
    show removeKeys (removeKey m a) ks = m
    rw [removeKey_eq_self_of_absent m a (h a (List.mem_cons_self a ks))]
    exact ih (fun k hk => h k (List.mem_cons_of_mem _ hk))

/-- Claim C9: removing absent keys — singly via `storage.remove` or in
bulk via `storage.clearMultiple` — succeeds with a null error and
leaves every store unchanged, and repeating either call changes
nothing further. -/
theorem c9_remove_absent_idempotent (plat : PlatformOS) (w : StoreWorld) (k : String)
    (ks : List String)
    (hk1 : lookupKey w.localStore k = none) (hk2 : lookupKey w.memStore k = none)
    (hk3 : lookupKey w.asyncStore k = none)
    (hks1 : ∀ a ∈ ks, lookupKey w.localStore a = none)
    (hks2 : ∀ a ∈ ks, lookupKey w.memStore a = none)
    (hks3 : ∀ a ∈ ks, lookupKey w.asyncStore a = none) :
    storageRemove plat noFaults w k = (⟨none⟩, w) ∧
    storageClearMultiple plat noFaults w ks = (⟨none⟩, w) ∧
    (storageRemove plat noFaults (storageRemove plat noFaults w k).2 k).2 =
      (storageRemove plat noFaults w k).2 ∧
    (storageClearMultiple plat noFaults (storageClearMultiple plat noFaults w ks).2 ks).2 =
      (storageClearMultiple plat noFaults w ks).2 := by
  have e1 := removeKey_eq_self_of_absent _ _ hk1
  have e2 := removeKey_eq_self_of_absent _ _ hk2
  have e3 := removeKey_eq_self_of_absent _ _ hk3
  have f1 := removeKeys_eq_self_of_absent ks _ hks1
  have f2 := removeKeys_eq_self_of_absent ks _ hks2
  have f3 := removeKeys_eq_self_of_absent ks _ hks3
  have h1 : storageRemove plat noFaults w k = (⟨none⟩, w) := by
    unfold storageRemove
    cases hp : plat.isWeb <;> cases hl : w.localAvail <;> simp [noFaults, e1, e2, e3] <;>
      rw [← hl]
  have h2 : storageClearMultiple plat noFaults w ks = (⟨none⟩, w) := by
    unfold storageClearMultiple
    cases hp : plat.isWeb <;> cases hl : w.localAvail <;> simp [noFaults, f1, f2, f3] <;>
      rw [← hl]
  exact ⟨h1, h2, by simp [h1], by simp [h2]⟩

/-- A populated store world whose stores do not hold the keys removed
by the claim C9 witness. -/
def storeW9 : StoreWorld := ⟨true, [("x", "1")], [("m", "2")], [("t", "3")], [("z", "4")]⟩

/-- Witness for claim C9 at the absent key "nope" and absent key list
`["a", "b"]` on the web platform. -/
theorem c9_remove_absent_idempotent_witness :
    storageRemove .web noFaults storeW9 "nope" = (⟨none⟩, storeW9) ∧
    storageClearMultiple .web noFaults storeW9 ["a", "b"] = (⟨none⟩, storeW9) ∧
    (storageRemove .web noFaults (storageRemove .web noFaults storeW9 "nope").2 "nope").2 =
      (storageRemove .web noFaults storeW9 "nope").2 ∧
    (storageClearMultiple .web noFaults
        (storageClearMultiple .web noFaults storeW9 ["a", "b"]).2 ["a", "b"]).2 =
      (storageClearMultiple .web noFaults storeW9 ["a", "b"]).2 :=
  c9_remove_absent_idempotent .web storeW9 "nope" ["a", "b"] (by decide) (by decide)
    (by decide) (by decide) (by decide) (by decide)

/-! ## Claim C10 -/

/-- Claim C10: on a native platform where the Google Sign-In module
failed to load, `hasPreviousSignIn` returns false — it neither throws
nor returns an error. -/
theorem c10_no_sdk_returns_false (B : Backend) (plat : PlatformOS) (gPrev : JSOut Bool)
    (h : plat.isWeb = false) :
    hasPreviousSignIn B plat false gPrev = .ret false := by
  simp [hasPreviousSignIn, h]

/-- Witness for claim C10 on Android with an unusable provider flag
call. -/
theorem c10_no_sdk_returns_false_witness :
    hasPreviousSignIn Bok .android false (.thrown "module unavailable") = .ret false :=
  c10_no_sdk_returns_false Bok .android (.thrown "module unavailable") rfl

end RNApp
